import Mathlib

/-!
Verification of the Reachy Mini control-plane backend (Python reference
implementation) against its natural-language specification.

The Lean definitions below are a shallow embedding of the relevant parts of
the source tree:

* `services/robot_service.py` — robot state record, motion clamping,
  simulated interpolation, connection lifecycle and the telemetry loop;
* `services/ai_service.py`   — inference statistics and the detection
  methods' initialization guard;
* `api/ai.py`                — the `batch/analyze` endpoint;
* `core/exceptions.py`       — the error-code enumeration, the API
  exception constructors and the global exception handler;
* `core/websocket_manager.py` — the connection registry's `connect` method.

Python floats are embedded as rationals (`ℚ`), so arithmetic is exact;
dictionaries with a fixed key set become structures; `try/except` blocks
become explicit `Except` values.  Wall-clock time, random draws and
preprocessing outcomes enter as explicit parameters so theorems quantify
over them.
-/

namespace ReachyMini

/-! ## Robot motion service (`services/robot_service.py`) -/

/-- The `head_position` dictionary `{"pan": ..., "tilt": ...}` of `RobotState`. -/
structure HeadPosition where
  pan : ℚ
  tilt : ℚ
deriving DecidableEq, Repr

/-- The `body_position` dictionary `{"x": ..., "y": ..., "z": ...}` of `RobotState`. -/
structure BodyPosition where
  x : ℚ
  y : ℚ
  z : ℚ
deriving DecidableEq, Repr

/-- The `RobotState` dataclass (robot_service.py lines 24-43).  The
`last_update` datetime field carries no claim-relevant information and is
not modelled. -/
structure RobotState where
  connected : Bool
  head_position : HeadPosition
  body_position : BodyPosition
  battery_level : ℚ
  temperature : ℚ
  error_messages : List String
deriving DecidableEq, Repr

/-- The `__post_init__` defaults of `RobotState`. -/
def RobotState.init : RobotState :=
  { connected := false
    head_position := ⟨0, 0⟩
    body_position := ⟨0, 0, 0⟩
    battery_level := 0
    temperature := 0
    error_messages := [] }

/-- The mutable fields of the `RobotService` object: its `is_connected` flag
and its `robot_state` record. -/
structure RobotService where
  is_connected : Bool
  robot_state : RobotState
deriving DecidableEq, Repr

/-- A freshly constructed `RobotService()`. -/
def RobotService.init : RobotService :=
  { is_connected := false, robot_state := RobotState.init }

/-- `self.head_limits["pan"]` = (-90, 90) degrees. -/
def head_pan_limits : ℚ × ℚ := (-90, 90)

/-- `self.head_limits["tilt"]` = (-45, 45) degrees. -/
def head_tilt_limits : ℚ × ℚ := (-45, 45)

/-- `self.body_limits["x"]` = (-0.5, 0.5) metres. -/
def body_x_limits : ℚ × ℚ := (-(1/2), 1/2)

/-- `self.body_limits["y"]` = (-0.5, 0.5) metres. -/
def body_y_limits : ℚ × ℚ := (-(1/2), 1/2)

/-- `self.body_limits["z"]` = (0.0, 0.3) metres. -/
def body_z_limits : ℚ × ℚ := (0, 3/10)

/-- `self.max_speed["head"]` = 30 degrees per second. -/
def max_head_speed : ℚ := 30

/-- `self.max_speed["body"]` = 0.1 metres per second. -/
def max_body_speed : ℚ := 1/10

/-- `RobotService._clamp_value` (robot_service.py lines 290-292):
`max(min_val, min(max_val, value))`. -/
def clamp_value (value min_val max_val : ℚ) : ℚ :=
  max min_val (min max_val value)

/-- One linear-interpolation assignment `current + (target - current) * progress`
used by both simulated movements. -/
def interp (current target progress : ℚ) : ℚ :=
  current + (target - current) * progress

/-- `steps = max(1, int(movement_time / 0.05))` (robot_service.py lines 307
and 332).  `movement_time` is never negative, so Python's truncating `int`
coincides with the floor. -/
def movement_steps (movement_time : ℚ) : ℕ :=
  max 1 (Int.floor (movement_time / (1/20))).toNat

/-- The head-movement `for i in range(steps + 1)` loop: each iteration
overwrites `head_position` with the interpolant at `progress = i / steps`;
the stored result is the value written by the last iteration. -/
def head_sim_loop (cur tgt : HeadPosition) (steps : ℕ) : HeadPosition :=
  (List.range (steps + 1)).foldl
    (fun _ (i : ℕ) =>
      let progress : ℚ := (i : ℚ) / (steps : ℚ)
      ⟨interp cur.pan tgt.pan progress, interp cur.tilt tgt.tilt progress⟩)
    cur

/-- `RobotService._simulate_head_movement` (robot_service.py lines 294-319). -/
def simulate_head_movement (rs : RobotState) (pan tilt speed : ℚ) : RobotState :=
  let cur := rs.head_position
  let pan_diff := |pan - cur.pan|
  let tilt_diff := |tilt - cur.tilt|
  let max_diff := max pan_diff tilt_diff
  let movement_time := if 0 < speed then max_diff / speed else 1/10
  let steps := movement_steps movement_time
  { rs with head_position := head_sim_loop cur ⟨pan, tilt⟩ steps }

/-- `speed = min(speed, self.max_speed["head"])` (robot_service.py line 174). -/
def effective_head_speed (speed : ℚ) : ℚ :=
  min speed max_head_speed

/-- `RobotService.move_head` (robot_service.py lines 165-189).  When not
connected the raised exception is caught by the method's own handler, which
returns `False` and leaves the state untouched. -/
def move_head (svc : RobotService) (pan tilt speed : ℚ) : Bool × RobotService :=
  if svc.is_connected = false then (false, svc)
  else
    let pan' := clamp_value pan head_pan_limits.1 head_pan_limits.2
    let tilt' := clamp_value tilt head_tilt_limits.1 head_tilt_limits.2
    let speed' := effective_head_speed speed
    (true, { svc with robot_state := simulate_head_movement svc.robot_state pan' tilt' speed' })

/-- The body-movement `for i in range(steps + 1)` loop of
`_simulate_body_movement`: each iteration overwrites `body_position` with
the interpolant at `progress = i / steps`. -/
def body_sim_loop (cur tgt : BodyPosition) (steps : ℕ) : BodyPosition :=
  (List.range (steps + 1)).foldl
    (fun _ (i : ℕ) =>
      let progress : ℚ := (i : ℚ) / (steps : ℚ)
      ⟨interp cur.x tgt.x progress, interp cur.y tgt.y progress,
       interp cur.z tgt.z progress⟩)
    cur

/-- `dist` plays the role of `np.sqrt((x-cx)**2 + (y-cy)**2 + (z-cz)**2)`
(robot_service.py line 328).  Square roots are not rational-definable, so
theorems constrain the `dist` argument of `simulate_body_movement` with this
predicate, which characterizes the square root exactly. -/
def IsBodyDistance (dist : ℚ) (cur tgt : BodyPosition) : Prop :=
  0 ≤ dist ∧
  dist ^ 2 = (tgt.x - cur.x) ^ 2 + (tgt.y - cur.y) ^ 2 + (tgt.z - cur.z) ^ 2

/-- `RobotService._simulate_body_movement` (robot_service.py lines 321-346).
Returns the final state together with the total simulated sleep time
(`asyncio.sleep(0.05)` runs once per loop iteration with `i < steps`). -/
def simulate_body_movement (rs : RobotState) (x y z speed dist : ℚ) :
    RobotState × ℚ :=
  let cur := rs.body_position
  let movement_time := if 0 < speed then dist / speed else 1/10
  let steps := movement_steps movement_time
  ({ rs with body_position := body_sim_loop cur ⟨x, y, z⟩ steps },
   (steps : ℚ) * (1/20))

/-- `speed = min(speed, self.max_speed["body"])` (robot_service.py line 201). -/
def effective_body_speed (speed : ℚ) : ℚ :=
  min speed max_body_speed

/-- `RobotService.move_body` (robot_service.py lines 191-216), with the
Euclidean distance of the simulation step supplied as `dist` (see
`IsBodyDistance`). -/
def move_body (svc : RobotService) (x y z speed dist : ℚ) : Bool × RobotService :=
  if svc.is_connected = false then (false, svc)
  else
    let x' := clamp_value x body_x_limits.1 body_x_limits.2
    let y' := clamp_value y body_y_limits.1 body_y_limits.2
    let z' := clamp_value z body_z_limits.1 body_z_limits.2
    let speed' := effective_body_speed speed
    (true,
     { svc with robot_state := (simulate_body_movement svc.robot_state x' y' z' speed' dist).1 })

/-- `RobotService.calibrate` (robot_service.py lines 264-288): when
connected, waits ~3 s then resets the head and body positions to the origin
and returns `True`; when not connected the raised exception is caught and
`False` is returned with the state untouched. -/
def calibrate (svc : RobotService) : Bool × RobotService :=
  if svc.is_connected = false then (false, svc)
  else
    (true,
     { svc with robot_state :=
        { svc.robot_state with head_position := ⟨0, 0⟩, body_position := ⟨0, 0, 0⟩ } })

/-- The names bound at module level in `services/robot_service.py` (its
imports and top-level assignments).  Note that `settings` is not among
them: the module imports only `get_config` from `core.config` and binds the
result to `config`. -/
def robot_service_module_globals : List String :=
  ["asyncio", "json", "logging", "Dict", "List", "Optional", "Any", "Tuple",
   "datetime", "np", "dataclass", "get_config", "setup_logger", "config",
   "logger", "RobotState", "RobotService", "robot_service"]

/-- `RobotService._simulate_connection` (robot_service.py lines 99-114):
after a ~1 s delay, sets the connected flags, battery 85.0 % and
temperature 35.2 °C. -/
def simulate_connection (svc : RobotService) : RobotService :=
  { is_connected := true
    robot_state :=
      { svc.robot_state with
        connected := true
        battery_level := 85
        temperature := 35.2 } }

/-- `RobotService.connect` (robot_service.py lines 116-142).  When already
connected it returns `True` immediately.  Otherwise the method first
evaluates the logging f-string containing `settings.REACHY_HOST`
(line 124); the interpreter looks the name `settings` up among the module's
globals, and since it is absent this raises `NameError` before
`_simulate_connection` is reached, so the `except` handler sets both
connected flags to `False` and returns `False`. -/
def connect (svc : RobotService) : Bool × RobotService :=
  if svc.is_connected then (true, svc)
  else if "settings" ∈ robot_service_module_globals then
    (true, simulate_connection svc)
  else
    (false,
     { svc with
       is_connected := false
       robot_state := { svc.robot_state with connected := false } })

/-- One iteration of `RobotService._status_update_loop` (robot_service.py
lines 348-372) while no exception occurs.  `gauss` is the value drawn from
`np.random.normal(0, 0.1)`.  The battery decrement is guarded by
`if self.robot_state.battery_level > 0`. -/
def status_update_tick (svc : RobotService) (gauss : ℚ) : RobotService :=
  if svc.is_connected then
    { svc with robot_state :=
      { svc.robot_state with
        battery_level :=
          if 0 < svc.robot_state.battery_level then
            svc.robot_state.battery_level - 1/1000
          else svc.robot_state.battery_level
        temperature := clamp_value (svc.robot_state.temperature + gauss) 30 45 } }
  else svc

/-- The service state right after a successful simulated connection from a
fresh service: connected, battery 85.0, temperature 35.2. -/
def connected_start : RobotService :=
  simulate_connection RobotService.init

/-- The service state after `n` telemetry ticks from `connected_start`,
with every Gaussian draw equal to 0. -/
def ticks_after (n : ℕ) : RobotService :=
  (fun s => status_update_tick s 0)^[n] connected_start

/-! ## AI inference service (`services/ai_service.py`) -/

/-- The `DetectionResult` dataclass (ai_service.py lines 29-36). -/
structure DetectionResult where
  class_name : String
  confidence : ℚ
  bbox : ℤ × ℤ × ℤ × ℤ
  center : ℤ × ℤ
  area : ℚ
deriving DecidableEq, Repr

/-- The `FaceResult` dataclass (ai_service.py lines 39-48). -/
structure FaceResult where
  bbox : ℤ × ℤ × ℤ × ℤ
  landmarks : List (ℤ × ℤ)
  confidence : ℚ
  identity : Option String
  age : Option ℤ
  gender : Option String
  emotion : Option String
deriving DecidableEq, Repr

/-- The `PoseResult` dataclass (ai_service.py lines 51-56). -/
structure PoseResult where
  keypoints : List (ℤ × ℤ × ℚ)
  bbox : ℤ × ℤ × ℤ × ℤ
  confidence : ℚ
deriving DecidableEq, Repr

/-- The `inference_stats` dictionary of `AIService` (ai_service.py lines
102-107). -/
structure InferenceStats where
  total_inferences : ℕ
  average_time : ℚ
  last_inference_time : ℚ
deriving DecidableEq, Repr

/-- The constructor values of `inference_stats`. -/
def InferenceStats.start : InferenceStats :=
  { total_inferences := 0, average_time := 0, last_inference_time := 0 }

/-- `AIService._update_stats` (ai_service.py lines 445-453). -/
def update_stats (s : InferenceStats) (inference_time : ℚ) : InferenceStats :=
  { total_inferences := s.total_inferences + 1
    last_inference_time := inference_time
    average_time :=
      (s.average_time * (((s.total_inferences + 1 : ℕ) : ℚ) - 1) + inference_time) /
        ((s.total_inferences + 1 : ℕ) : ℚ) }

/-- The stats after recording a sequence of inference latencies, starting
from a fresh service. -/
def record_latencies (ts : List ℚ) : InferenceStats :=
  ts.foldl update_stats InferenceStats.start

/-- The claim-relevant mutable fields of `AIService`. -/
structure AIServiceState where
  is_initialized : Bool
  models : List String
  inference_stats : InferenceStats
deriving DecidableEq, Repr

/-- An `AIService` that has not been initialized. -/
def AIServiceState.fresh : AIServiceState :=
  { is_initialized := false, models := [], inference_stats := InferenceStats.start }

/-- The canned detections of `_simulate_object_detection` (ai_service.py
lines 357-387). -/
def simulated_object_detections : List DetectionResult :=
  [{ class_name := "person", confidence := 0.85, bbox := (100, 50, 300, 400),
     center := (200, 225), area := 70000 },
   { class_name := "chair", confidence := 0.72, bbox := (350, 200, 500, 350),
     center := (425, 275), area := 22500 },
   { class_name := "bottle", confidence := 0.68, bbox := (50, 300, 80, 380),
     center := (65, 340), area := 2400 }]

/-- The canned face of `_simulate_face_detection` (ai_service.py lines
389-407). -/
def simulated_face_detections : List FaceResult :=
  [{ bbox := (120, 80, 280, 240)
     landmarks := [(150, 120), (250, 120), (200, 160), (180, 200), (220, 200)]
     confidence := 0.92
     identity := some "Unknown"
     age := some 25
     gender := some "Male"
     emotion := some "Happy" }]

/-- The canned pose of `_simulate_pose_estimation` (ai_service.py lines
409-443). -/
def simulated_pose_estimations : List PoseResult :=
  [{ keypoints :=
       [(200, 100, 0.9), (190, 95, 0.8), (210, 95, 0.8), (180, 100, 0.7),
        (220, 100, 0.7), (170, 150, 0.9), (230, 150, 0.9), (160, 200, 0.8),
        (240, 200, 0.8), (150, 250, 0.7), (250, 250, 0.7), (180, 250, 0.9),
        (220, 250, 0.9), (175, 350, 0.8), (225, 350, 0.8), (170, 450, 0.7),
        (230, 450, 0.7)]
     bbox := (150, 95, 250, 450)
     confidence := 0.88 }]

/-- The `try` body of `AIService.detect_objects` (ai_service.py lines
170-187): raises a plain `Exception` when not initialized, propagates a
preprocessing failure (`pre` is the outcome of `_preprocess_image` for the
given image, an external cv2/PIL boundary), otherwise produces the canned
detections and records the measured latency `t`. -/
def detect_objects_try_body (st : AIServiceState) (pre : Except String Unit)
    (t : ℚ) : Except String (List DetectionResult × AIServiceState) :=
  if st.is_initialized = false then Except.error "AI服务未初始化"
  else
    match pre with
    | Except.error e => Except.error e
    | Except.ok _ =>
        Except.ok (simulated_object_detections,
          { st with inference_stats := update_stats st.inference_stats t })

/-- `AIService.detect_objects` (ai_service.py lines 168-191).  The `except`
handler catches every exception from the body, logs it, and returns `[]`,
so the caller always observes a normal (`Except.ok`) list. -/
def detect_objects (st : AIServiceState) (pre : Except String Unit) (t : ℚ) :
    Except String (List DetectionResult) × AIServiceState :=
  match detect_objects_try_body st pre t with
  | Except.error _ => (Except.ok [], st)
  | Except.ok (r, st') => (Except.ok r, st')

/-- The `try` body of `AIService.detect_faces` (ai_service.py lines
195-212). -/
def detect_faces_try_body (st : AIServiceState) (pre : Except String Unit)
    (t : ℚ) : Except String (List FaceResult × AIServiceState) :=
  if st.is_initialized = false then Except.error "AI服务未初始化"
  else
    match pre with
    | Except.error e => Except.error e
    | Except.ok _ =>
        Except.ok (simulated_face_detections,
          { st with inference_stats := update_stats st.inference_stats t })

/-- `AIService.detect_faces` (ai_service.py lines 193-216). -/
def detect_faces (st : AIServiceState) (pre : Except String Unit) (t : ℚ) :
    Except String (List FaceResult) × AIServiceState :=
  match detect_faces_try_body st pre t with
  | Except.error _ => (Except.ok [], st)
  | Except.ok (r, st') => (Except.ok r, st')

/-- The `try` body of `AIService.estimate_pose` (ai_service.py lines
220-237). -/
def estimate_pose_try_body (st : AIServiceState) (pre : Except String Unit)
    (t : ℚ) : Except String (List PoseResult × AIServiceState) :=
  if st.is_initialized = false then Except.error "AI服务未初始化"
  else
    match pre with
    | Except.error e => Except.error e
    | Except.ok _ =>
        Except.ok (simulated_pose_estimations,
          { st with inference_stats := update_stats st.inference_stats t })

/-- `AIService.estimate_pose` (ai_service.py lines 218-241). -/
def estimate_pose (st : AIServiceState) (pre : Except String Unit) (t : ℚ) :
    Except String (List PoseResult) × AIServiceState :=
  match estimate_pose_try_body st pre t with
  | Except.error _ => (Except.ok [], st)
  | Except.ok (r, st') => (Except.ok r, st')

/-! ## AI batch endpoint (`api/ai.py`, `batch_analyze`) -/

/-- A FastAPI `HTTPException` as raised by the AI API surface: an HTTP
status code plus a detail string. -/
structure HTTPError where
  status_code : ℕ
  detail : String
deriving DecidableEq, Repr

/-- One per-image entry appended to `results` by the `batch_analyze` loop
(api/ai.py lines 355-400): a successful objects entry, a successful faces
entry, the `success: False` entry for an unsupported analysis type, or the
`success: False` entry built by the per-image `except` handler. -/
inductive BatchEntry where
  | objects (index : ℕ) (detections : ℕ) (data : List DetectionResult)
  | faces (index : ℕ) (faces : ℕ) (data : List FaceResult)
  | unsupported (index : ℕ) (error : String)
  | failed (index : ℕ) (error : String)
deriving DecidableEq, Repr

/-- The `success` field of a per-image entry. -/
def batch_entry_success : BatchEntry → Bool
  | BatchEntry.objects _ _ _ => true
  | BatchEntry.faces _ _ _ => true
  | BatchEntry.unsupported _ _ => false
  | BatchEntry.failed _ _ => false

/-- The JSON payload returned by a successful `batch_analyze` call
(api/ai.py lines 404-411); wall-clock fields are not modelled. -/
structure BatchResponse where
  success : Bool
  total_images : ℕ
  successful_analyses : ℕ
  results : List BatchEntry
deriving DecidableEq, Repr

/-- The body of one iteration of the `batch_analyze` loop for image number
`i`.  `svc_detect_objects`/`svc_detect_faces` are the outcomes of the
underlying service calls for each base64 image string (an `Except.error`
models an exception escaping the call, which the per-image `try/except`
captures into that image's entry). -/
def batch_process_image (analysis_type : String) (threshold : ℚ)
    (svc_detect_objects : String → Except String (List DetectionResult))
    (svc_detect_faces : String → Except String (List FaceResult))
    (i : ℕ) (image_data : String) : BatchEntry :=
  if analysis_type = "objects" then
    match svc_detect_objects image_data with
    | Except.ok dets =>
        let filtered := dets.filter (fun d => threshold ≤ d.confidence)
        BatchEntry.objects i filtered.length filtered
    | Except.error e => BatchEntry.failed i e
  else if analysis_type = "faces" then
    match svc_detect_faces image_data with
    | Except.ok fs =>
        let filtered := fs.filter (fun f => threshold ≤ f.confidence)
        BatchEntry.faces i filtered.length filtered
    | Except.error e => BatchEntry.failed i e
  else BatchEntry.unsupported i ("不支持的分析类型: " ++ analysis_type)

/-- The `for i, image_data in enumerate(request.images)` loop, appending
one entry per image with its running index. -/
def batch_loop (f : ℕ → String → BatchEntry) : ℕ → List String → List BatchEntry
  | _, [] => []
  | i, img :: rest => f i img :: batch_loop f (i + 1) rest

/-- `batch_analyze` (api/ai.py lines 345-417): more than 10 images is
rejected with HTTP 400 before any image is processed; otherwise every
image is processed sequentially into one entry each. -/
def batch_analyze (images : List String) (analysis_type : String) (threshold : ℚ)
    (svc_detect_objects : String → Except String (List DetectionResult))
    (svc_detect_faces : String → Except String (List FaceResult)) :
    Except HTTPError BatchResponse :=
  if 10 < images.length then
    Except.error { status_code := 400, detail := "批量分析最多支持10张图片" }
  else
    let results := batch_loop
      (batch_process_image analysis_type threshold svc_detect_objects svc_detect_faces)
      0 images
    Except.ok
      { success := true
        total_images := images.length
        successful_analyses := (results.filter (fun r => batch_entry_success r)).length
        results := results }

/-- A concrete object-detection oracle used for witnesses: it fails on the
image `"bad"` and returns the canned detections otherwise. -/
def demo_detect_objects : String → Except String (List DetectionResult) :=
  fun img => if img = "bad" then Except.error "boom" else Except.ok simulated_object_detections

/-- A concrete face-detection oracle used for witnesses. -/
def demo_detect_faces : String → Except String (List FaceResult) :=
  fun _ => Except.ok simulated_face_detections

/-! ## WebSocket connection registry (`core/websocket_manager.py`) -/

/-- Python runtime errors relevant to the embedded methods. -/
inductive PyError where
  | nameError (name : String)
  | attributeError (name : String)
deriving DecidableEq, Repr

/-- The method names defined in the class body of `WebSocketManager`
(core/websocket_manager.py lines 19-358).  Neither `send_to_websocket`
(called at lines 62, 165, 184, 191, 201 and 235) nor `_start_heartbeat`
(called in `__init__` at line 38) is among them, so those calls raise
`AttributeError` at run time. -/
def websocket_manager_methods : List String :=
  ["__init__", "connect", "disconnect", "_remove_connection", "send_to_client",
   "send_to_type", "broadcast", "handle_control_message", "_handle_robot_control",
   "_handle_status_request", "_start_heartbeat_task", "_heartbeat_loop",
   "_check_heartbeats", "cleanup", "get_connection_count", "get_connection_stats",
   "register_message_handler", "get_connection_info"]

/-- The `connection_info` metadata recorded for a socket
(core/websocket_manager.py lines 52-57); times are abstract ticks. -/
structure WSConnectionMeta where
  ctype : String
  connected_at : ℕ
  last_ping : ℕ
  client : String
deriving DecidableEq, Repr

/-- The manager's mutable state: the type-keyed socket sets, the metadata
map, the accepted handshakes, and every message actually delivered to a
socket. -/
structure WSManagerState where
  connections : List (String × List ℕ)
  connection_info : List (ℕ × WSConnectionMeta)
  accepted : List ℕ
  sent_messages : List (ℕ × String)
deriving DecidableEq, Repr

/-- `self.connections[connection_type].add(websocket)`, creating the key
first when absent (core/websocket_manager.py lines 46-49). -/
def add_socket (conns : List (String × List ℕ)) (ctype : String) (ws : ℕ) :
    List (String × List ℕ) :=
  match conns with
  | [] => [(ctype, [ws])]
  | (t, s) :: rest =>
      if t = ctype then (t, s ++ [ws]) :: rest
      else (t, s) :: add_socket rest ctype ws

/-- Lookup of a channel type's socket set. -/
def ws_lookup (conns : List (String × List ℕ)) (ctype : String) :
    Option (List ℕ) :=
  match conns with
  | [] => none
  | (t, s) :: rest => if t = ctype then some s else ws_lookup rest ctype

/-- The registry shape set up at the top of `WebSocketManager.__init__`
(core/websocket_manager.py lines 24-31). -/
def ws_manager_start : WSManagerState :=
  { connections := [("control", []), ("stream", []), ("monitor", [])]
    connection_info := []
    accepted := []
    sent_messages := [] }

/-- `WebSocketManager.connect` (core/websocket_manager.py lines 40-70):
accepts the handshake, registers the socket under its channel type, records
its metadata, then calls `self.send_to_websocket(...)` to push the
`connection_established` acknowledgment.  The method lookup on `self`
succeeds only if the name is defined in the class; otherwise the call
raises `AttributeError`, which the method's `except` handler logs and
re-raises (the registration side effects persist). -/
def ws_connect (mgr : WSManagerState) (ws : ℕ) (ctype : String) (now : ℕ)
    (client : String) : Except PyError Unit × WSManagerState :=
  let mgr1 : WSManagerState :=
    { mgr with
      accepted := mgr.accepted ++ [ws]
      connections := add_socket mgr.connections ctype ws
      connection_info := mgr.connection_info ++ [(ws, ⟨ctype, now, now, client⟩)] }
  if "send_to_websocket" ∈ websocket_manager_methods then
    (Except.ok (),
     { mgr1 with sent_messages := mgr1.sent_messages ++ [(ws, "connection_established")] })
  else
    (Except.error (PyError.attributeError "send_to_websocket"), mgr1)

/-! ## Error taxonomy and global handler (`core/exceptions.py`) -/

/-- The `ErrorCode` string enumeration (exceptions.py lines 30-81). -/
inductive ErrorCode where
  | UNKNOWN_ERROR
  | INTERNAL_SERVER_ERROR
  | VALIDATION_ERROR
  | AUTHENTICATION_ERROR
  | AUTHORIZATION_ERROR
  | NOT_FOUND_ERROR
  | CONFLICT_ERROR
  | RATE_LIMIT_ERROR
  | DATABASE_CONNECTION_ERROR
  | DATABASE_QUERY_ERROR
  | DATABASE_CONSTRAINT_ERROR
  | DATABASE_TRANSACTION_ERROR
  | ROBOT_CONNECTION_ERROR
  | ROBOT_COMMUNICATION_ERROR
  | ROBOT_HARDWARE_ERROR
  | ROBOT_SAFETY_ERROR
  | ROBOT_CALIBRATION_ERROR
  | AI_MODEL_ERROR
  | AI_INFERENCE_ERROR
  | AI_MODEL_NOT_FOUND
  | AI_PROCESSING_ERROR
  | STREAM_CONNECTION_ERROR
  | STREAM_ENCODING_ERROR
  | STREAM_DEVICE_ERROR
  | STREAM_BUFFER_ERROR
  | TASK_NOT_FOUND
  | TASK_EXECUTION_ERROR
  | TASK_TIMEOUT_ERROR
  | TASK_CANCELLED_ERROR
  | CONFIG_ERROR
  | CONFIG_VALIDATION_ERROR
  | FILE_NOT_FOUND
  | FILE_PERMISSION_ERROR
  | FILE_SIZE_ERROR
  | FILE_FORMAT_ERROR
deriving DecidableEq, Repr

/-- The `.value` of each enumeration member (wire-stable string). -/
def ErrorCode.value : ErrorCode → String
  | UNKNOWN_ERROR => "UNKNOWN_ERROR"
  | INTERNAL_SERVER_ERROR => "INTERNAL_SERVER_ERROR"
  | VALIDATION_ERROR => "VALIDATION_ERROR"
  | AUTHENTICATION_ERROR => "AUTHENTICATION_ERROR"
  | AUTHORIZATION_ERROR => "AUTHORIZATION_ERROR"
  | NOT_FOUND_ERROR => "NOT_FOUND_ERROR"
  | CONFLICT_ERROR => "CONFLICT_ERROR"
  | RATE_LIMIT_ERROR => "RATE_LIMIT_ERROR"
  | DATABASE_CONNECTION_ERROR => "DATABASE_CONNECTION_ERROR"
  | DATABASE_QUERY_ERROR => "DATABASE_QUERY_ERROR"
  | DATABASE_CONSTRAINT_ERROR => "DATABASE_CONSTRAINT_ERROR"
  | DATABASE_TRANSACTION_ERROR => "DATABASE_TRANSACTION_ERROR"
  | ROBOT_CONNECTION_ERROR => "ROBOT_CONNECTION_ERROR"
  | ROBOT_COMMUNICATION_ERROR => "ROBOT_COMMUNICATION_ERROR"
  | ROBOT_HARDWARE_ERROR => "ROBOT_HARDWARE_ERROR"
  | ROBOT_SAFETY_ERROR => "ROBOT_SAFETY_ERROR"
  | ROBOT_CALIBRATION_ERROR => "ROBOT_CALIBRATION_ERROR"
  | AI_MODEL_ERROR => "AI_MODEL_ERROR"
  | AI_INFERENCE_ERROR => "AI_INFERENCE_ERROR"
  | AI_MODEL_NOT_FOUND => "AI_MODEL_NOT_FOUND"
  | AI_PROCESSING_ERROR => "AI_PROCESSING_ERROR"
  | STREAM_CONNECTION_ERROR => "STREAM_CONNECTION_ERROR"
  | STREAM_ENCODING_ERROR => "STREAM_ENCODING_ERROR"
  | STREAM_DEVICE_ERROR => "STREAM_DEVICE_ERROR"
  | STREAM_BUFFER_ERROR => "STREAM_BUFFER_ERROR"
  | TASK_NOT_FOUND => "TASK_NOT_FOUND"
  | TASK_EXECUTION_ERROR => "TASK_EXECUTION_ERROR"
  | TASK_TIMEOUT_ERROR => "TASK_TIMEOUT_ERROR"
  | TASK_CANCELLED_ERROR => "TASK_CANCELLED_ERROR"
  | CONFIG_ERROR => "CONFIG_ERROR"
  | CONFIG_VALIDATION_ERROR => "CONFIG_VALIDATION_ERROR"
  | FILE_NOT_FOUND => "FILE_NOT_FOUND"
  | FILE_PERMISSION_ERROR => "FILE_PERMISSION_ERROR"
  | FILE_SIZE_ERROR => "FILE_SIZE_ERROR"
  | FILE_FORMAT_ERROR => "FILE_FORMAT_ERROR"

/-- A value stored in an exception's `details` dictionary. -/
inductive DetailValue where
  | str (s : String)
  | strMap (m : List (String × String))
  | intVal (n : ℤ)
deriving DecidableEq, Repr

/-- The data carried by an `APIException` (exceptions.py lines 121-134):
message, HTTP status code, error code, details dictionary and response
headers. -/
structure APIExceptionData where
  message : String
  status_code : ℕ
  error_code : ErrorCode
  details : List (String × DetailValue)
  headers : List (String × String)
deriving DecidableEq, Repr

/-- The `APIException` base constructor with explicit arguments. -/
def api_exception (message : String) (status_code : ℕ) (error_code : ErrorCode)
    (details : List (String × DetailValue)) (headers : List (String × String)) :
    APIExceptionData :=
  { message, status_code, error_code, details, headers }

/-- `ValidationException` (exceptions.py lines 137-147):
`details = {"field_errors": field_errors} if field_errors else {}`
(Python truthiness: both `None` and an empty map give `{}`). -/
def validation_exception (message : String)
    (field_errors : Option (List (String × String))) : APIExceptionData :=
  { message
    status_code := 422
    error_code := ErrorCode.VALIDATION_ERROR
    details :=
      match field_errors with
      | some fe => if fe.isEmpty then [] else [("field_errors", DetailValue.strMap fe)]
      | none => []
    headers := [] }

/-- `AuthenticationException` (exceptions.py lines 150-159). -/
def authentication_exception (message : String) : APIExceptionData :=
  { message
    status_code := 401
    error_code := ErrorCode.AUTHENTICATION_ERROR
    details := []
    headers := [("WWW-Authenticate", "Bearer")] }

/-- `AuthorizationException` (exceptions.py lines 162-170). -/
def authorization_exception (message : String) : APIExceptionData :=
  { message
    status_code := 403
    error_code := ErrorCode.AUTHORIZATION_ERROR
    details := []
    headers := [] }

/-- `NotFoundException` (exceptions.py lines 173-186). -/
def not_found_exception (resource identifier : String) : APIExceptionData :=
  { message :=
      if identifier = "" then resource ++ " not found"
      else resource ++ " not found: " ++ identifier
    status_code := 404
    error_code := ErrorCode.NOT_FOUND_ERROR
    details := [("resource", DetailValue.str resource),
                ("identifier", DetailValue.str identifier)]
    headers := [] }

/-- `ConflictException` (exceptions.py lines 189-198). -/
def conflict_exception (message resource : String) : APIExceptionData :=
  { message
    status_code := 409
    error_code := ErrorCode.CONFLICT_ERROR
    details := if resource = "" then [] else [("resource", DetailValue.str resource)]
    headers := [] }

/-- `RateLimitException` (exceptions.py lines 201-214):
`if retry_after:` is Python truthiness, so `0` adds no header. -/
def rate_limit_exception (message : String) (retry_after : Option ℤ) :
    APIExceptionData :=
  { message
    status_code := 429
    error_code := ErrorCode.RATE_LIMIT_ERROR
    details := []
    headers :=
      match retry_after with
      | some n => if n = 0 then [] else [("Retry-After", toString n)]
      | none => [] }

/-- The inner `"error"` object of every rendered error body
(exceptions.py lines 516-527): code, message, timestamp (absent when the
logger has no handlers) and an optional details object. -/
structure ErrorBody where
  code : String
  message : String
  timestamp : Option String
  details : Option (List (String × DetailValue))
deriving DecidableEq, Repr

/-- The `JSONResponse` produced by the handler: HTTP status, the
`{"error": {...}}` body, and response headers. -/
structure ErrorJSONResponse where
  status_code : ℕ
  error : ErrorBody
  headers : List (String × String)
deriving DecidableEq, Repr

/-- `GlobalExceptionHandler.create_error_response` (exceptions.py lines
507-533).  `timestamp` stands for the formatted time when
`logger.handlers` is non-empty, `none` otherwise; `if details:` includes
the details object only when it is present and non-empty. -/
def create_error_response (error_code message : String) (status_code : ℕ)
    (details : Option (List (String × DetailValue)))
    (headers : List (String × String)) (timestamp : Option String) :
    ErrorJSONResponse :=
  { status_code
    error :=
      { code := error_code
        message := message
        timestamp := timestamp
        details :=
          match details with
          | some d => if d.isEmpty then none else some d
          | none => none }
    headers }

/-- `GlobalExceptionHandler.api_exception_handler` (exceptions.py lines
535-546): renders an `APIException` with its declared code, message,
status, details and headers. -/
def api_exception_handler (exc : APIExceptionData) (timestamp : Option String) :
    ErrorJSONResponse :=
  create_error_response exc.error_code.value exc.message exc.status_code
    (some exc.details) exc.headers timestamp

/-- Every declared API-level domain error of exceptions.py, with its
constructor arguments: the six concrete specializations plus the
`APIException` base class itself. -/
inductive DeclaredAPIError where
  | validation (message : String) (field_errors : Option (List (String × String)))
  | authentication (message : String)
  | authorization (message : String)
  | notFound (resource identifier : String)
  | conflict (message resource : String)
  | rateLimit (message : String) (retry_after : Option ℤ)
  | api (message : String) (status_code : ℕ) (error_code : ErrorCode)
        (details : List (String × DetailValue)) (headers : List (String × String))

/-- The `APIException` data each declared error constructs. -/
def DeclaredAPIError.toExceptionData : DeclaredAPIError → APIExceptionData
  | DeclaredAPIError.validation m fe => validation_exception m fe
  | DeclaredAPIError.authentication m => authentication_exception m
  | DeclaredAPIError.authorization m => authorization_exception m
  | DeclaredAPIError.notFound r i => not_found_exception r i
  | DeclaredAPIError.conflict m r => conflict_exception m r
  | DeclaredAPIError.rateLimit m ra => rate_limit_exception m ra
  | DeclaredAPIError.api m s c d h => api_exception m s c d h

/-! ### Theorem-support lemmas -/

theorem foldl_const_overwrite {α : Type} (g : ℕ → α) (a : α) (n : ℕ) :
    (List.range (n + 1)).foldl (fun _ i => g i) a = g n := by
  rw [List.range_succ, List.foldl_append, List.foldl_cons, List.foldl_nil]

theorem movement_steps_ne_zero (t : ℚ) : movement_steps t ≠ 0 := by
  have h : 1 ≤ movement_steps t := le_max_left _ _
  omega

theorem head_sim_loop_final (cur tgt : HeadPosition) (n : ℕ) (hn : n ≠ 0) :
    head_sim_loop cur tgt n = tgt := by
  unfold head_sim_loop
  rw [foldl_const_overwrite
    (fun i : ℕ =>
      let progress : ℚ := (i : ℚ) / (n : ℚ)
      (⟨interp cur.pan tgt.pan progress, interp cur.tilt tgt.tilt progress⟩ : HeadPosition))
    cur n]
  have h : ((n : ℚ) / (n : ℚ)) = 1 := div_self (by exact_mod_cast hn)
  cases tgt with
  | mk p t =>
    simp only [interp, h, mul_one]
    congr 1 <;> ring

theorem le_clamp_value (v lo hi : ℚ) : lo ≤ clamp_value v lo hi :=
  le_max_left _ _

theorem clamp_value_le (v lo hi : ℚ) (h : lo ≤ hi) : clamp_value v lo hi ≤ hi :=
  max_le h (min_le_left _ _)

theorem move_head_result (svc : RobotService) (pan tilt speed : ℚ)
    (h : svc.is_connected = true) :
    (move_head svc pan tilt speed).1 = true ∧
    (move_head svc pan tilt speed).2.robot_state.head_position =
      ⟨clamp_value pan head_pan_limits.1 head_pan_limits.2,
       clamp_value tilt head_tilt_limits.1 head_tilt_limits.2⟩ := by
  unfold move_head
  rw [h]
  refine ⟨by simp, ?_⟩
  simp only [Bool.true_eq_false, if_false]
  unfold simulate_head_movement
  simp only
  exact head_sim_loop_final _ _ _ (movement_steps_ne_zero _)

/-- C1: while connected, `RobotService.move_head` clamps the stored head
state into the safety envelope before use: the resulting pan lies in
[-90, 90] degrees and tilt in [-45, 45] degrees, the effective speed
`min(speed, 30)` never exceeds 30 °/s, and in particular
`move_head(pan=120, tilt=-60, speed=50)` ends with stored pan = 90 and
tilt = -45; out-of-range requests are clamped, not rejected (the call still
returns success). -/
theorem move_head_clamps_into_envelope (svc : RobotService) (pan tilt speed : ℚ)
    (h : svc.is_connected = true) :
    (move_head svc pan tilt speed).1 = true ∧
    -90 ≤ (move_head svc pan tilt speed).2.robot_state.head_position.pan ∧
    (move_head svc pan tilt speed).2.robot_state.head_position.pan ≤ 90 ∧
    -45 ≤ (move_head svc pan tilt speed).2.robot_state.head_position.tilt ∧
    (move_head svc pan tilt speed).2.robot_state.head_position.tilt ≤ 45 ∧
    effective_head_speed speed ≤ 30 ∧
    (move_head svc 120 (-60) 50).1 = true ∧
    (move_head svc 120 (-60) 50).2.robot_state.head_position = ⟨90, -45⟩ := by
  obtain ⟨hok, hpos⟩ := move_head_result svc pan tilt speed h
  obtain ⟨hok2, hpos2⟩ := move_head_result svc 120 (-60) 50 h
  rw [hpos, hpos2]
  refine ⟨hok, ?_, ?_, ?_, ?_, ?_, hok2, ?_⟩
  · exact le_clamp_value _ _ _
  · exact clamp_value_le _ _ _ (by norm_num [head_pan_limits])
  · exact le_clamp_value _ _ _
  · exact clamp_value_le _ _ _ (by norm_num [head_tilt_limits])
  · exact min_le_of_right_le (by norm_num [max_head_speed])
  · norm_num [clamp_value, head_pan_limits, head_tilt_limits]

/-- Witness for C1, instantiated at the concrete post-connection state. -/
theorem move_head_clamps_witness :
    (move_head connected_start 120 (-60) 50).1 = true ∧
    (move_head connected_start 120 (-60) 50).2.robot_state.head_position = ⟨90, -45⟩ := by
  have h := move_head_clamps_into_envelope connected_start 120 (-60) 50 rfl
  exact ⟨h.2.2.2.2.2.2.1, h.2.2.2.2.2.2.2⟩

theorem body_sim_loop_final (cur tgt : BodyPosition) (n : ℕ) (hn : n ≠ 0) :
    body_sim_loop cur tgt n = tgt := by
  unfold body_sim_loop
  rw [foldl_const_overwrite
    (fun i : ℕ =>
      let progress : ℚ := (i : ℚ) / (n : ℚ)
      (⟨interp cur.x tgt.x progress, interp cur.y tgt.y progress,
        interp cur.z tgt.z progress⟩ : BodyPosition))
    cur n]
  have h : ((n : ℚ) / (n : ℚ)) = 1 := div_self (by exact_mod_cast hn)
  cases tgt with
  | mk p q r =>
    simp only [interp, h, mul_one]
    congr 1 <;> ring

/-- C8: for a connected robot whose body is at (0,0,0), `move_body` to
(0.5, 0, 0) at 0.1 m/s succeeds, the interpolation loop's total sleep is
exactly 100 steps of 50 ms = 5 seconds, and the stored body position ends
exactly at (0.5, 0, 0). -/
theorem move_body_five_seconds (svc : RobotService) (dist : ℚ)
    (hconn : svc.is_connected = true)
    (hpos : svc.robot_state.body_position = ⟨0, 0, 0⟩)
    (hdist : IsBodyDistance dist svc.robot_state.body_position ⟨1/2, 0, 0⟩) :
    (move_body svc (1/2) 0 0 (1/10) dist).1 = true ∧
    (move_body svc (1/2) 0 0 (1/10) dist).2.robot_state.body_position = ⟨1/2, 0, 0⟩ ∧
    (simulate_body_movement svc.robot_state (1/2) 0 0 (1/10) dist).2 = 5 := by
  obtain ⟨hd0, hd2⟩ := hdist
  rw [hpos] at hd2
  have hsq : dist ^ 2 = (1/2 : ℚ) ^ 2 := by
    rw [hd2]; norm_num
  have hzero : (dist - 1/2) * (dist + 1/2) = 0 := by linear_combination hsq
  have hdist_eq : dist = 1/2 := by
    rcases mul_eq_zero.mp hzero with h | h
    · linarith
    · linarith
  subst hdist_eq
  have hsteps : movement_steps ((1/2 : ℚ) / (1/10)) = 100 := by
    unfold movement_steps
    have h1 : ((1/2 : ℚ) / (1/10)) / (1/20) = ((100 : ℤ) : ℚ) := by norm_num
    rw [h1, Int.floor_intCast]
    rfl
  clear hsq hzero hd0 hd2
  have hsim : simulate_body_movement svc.robot_state (1/2) 0 0 (1/10) (1/2) =
      ({ svc.robot_state with body_position := ⟨1/2, 0, 0⟩ }, 5) := by
    unfold simulate_body_movement
    simp only
    rw [if_pos (show (0:ℚ) < 1/10 by norm_num), hsteps,
        body_sim_loop_final _ _ 100 (by norm_num)]
    norm_num
  have hx : clamp_value (1/2) body_x_limits.1 body_x_limits.2 = 1/2 := by
    norm_num [clamp_value, body_x_limits]
  have hy : clamp_value 0 body_y_limits.1 body_y_limits.2 = 0 := by
    norm_num [clamp_value, body_y_limits]
  have hz : clamp_value 0 body_z_limits.1 body_z_limits.2 = 0 := by
    norm_num [clamp_value, body_z_limits]
  have hs : effective_body_speed (1/10) = 1/10 := by
    norm_num [effective_body_speed, max_body_speed]
  refine ⟨?_, ?_, ?_⟩
  · unfold move_body
    rw [hconn]
    simp
  · unfold move_body
    rw [hconn]
    simp only [Bool.true_eq_false, if_false, hx, hy, hz, hs, hsim]
  · rw [hsim]

/-- Witness for C8 at the concrete post-connection state with the exact
root `dist = 1/2`. -/
theorem move_body_five_seconds_witness :
    (move_body connected_start (1/2) 0 0 (1/10) (1/2)).1 = true ∧
    (move_body connected_start (1/2) 0 0 (1/10) (1/2)).2.robot_state.body_position = ⟨1/2, 0, 0⟩ ∧
    (simulate_body_movement connected_start.robot_state (1/2) 0 0 (1/10) (1/2)).2 = 5 := by
  refine move_body_five_seconds connected_start (1/2) rfl rfl ?_
  unfold IsBodyDistance
  refine ⟨by norm_num, ?_⟩
  show (1/2 : ℚ) ^ 2 = ((1/2 : ℚ) - 0) ^ 2 + ((0 : ℚ) - 0) ^ 2 + ((0 : ℚ) - 0) ^ 2
  norm_num

/-- C10: a successful `calibrate()` on a connected robot resets the head
position to (0, 0) and the body position to (0, 0, 0) while leaving the
connected flag, battery level, temperature and error-message list
unchanged. -/
theorem calibrate_resets_positions_only (svc : RobotService)
    (h : svc.is_connected = true) :
    (calibrate svc).1 = true ∧
    (calibrate svc).2.robot_state.head_position = ⟨0, 0⟩ ∧
    (calibrate svc).2.robot_state.body_position = ⟨0, 0, 0⟩ ∧
    (calibrate svc).2.is_connected = svc.is_connected ∧
    (calibrate svc).2.robot_state.connected = svc.robot_state.connected ∧
    (calibrate svc).2.robot_state.battery_level = svc.robot_state.battery_level ∧
    (calibrate svc).2.robot_state.temperature = svc.robot_state.temperature ∧
    (calibrate svc).2.robot_state.error_messages = svc.robot_state.error_messages := by
  unfold calibrate
  rw [h]
  simp

/-- Witness for C10 at the concrete post-connection state. -/
theorem calibrate_witness :
    (calibrate connected_start).1 = true ∧
    (calibrate connected_start).2.robot_state.head_position = ⟨0, 0⟩ ∧
    (calibrate connected_start).2.robot_state.battery_level = 85 := by
  have h := calibrate_resets_positions_only connected_start rfl
  refine ⟨h.1, h.2.1, ?_⟩
  rw [h.2.2.2.2.2.1]
  rfl

/-- C3: evaluation of `RobotService.connect` at its failing input.  On a
fresh (disconnected) service the method returns `False` and leaves the
robot disconnected, because the logging f-string on robot_service.py line
124 references the undefined module-level name `settings` and raises
`NameError` before `_simulate_connection` runs.  The idempotent half of the
claim does hold (already-connected `connect()` returns `True` unchanged),
and `_simulate_connection` — had it been reached — would have produced the
claimed battery 85.0 and temperature 35.2. -/
theorem connect_hits_name_error :
    (connect RobotService.init).1 = false ∧
    (connect RobotService.init).2.is_connected = false ∧
    (connect RobotService.init).2.robot_state.connected = false ∧
    (connect RobotService.init).2.robot_state.battery_level = 0 ∧
    (connect connected_start).1 = true ∧
    (connect connected_start).2 = connected_start ∧
    "settings" ∉ robot_service_module_globals ∧
    (simulate_connection RobotService.init).is_connected = true ∧
    (simulate_connection RobotService.init).robot_state.battery_level = 85 ∧
    (simulate_connection RobotService.init).robot_state.temperature = 35.2 := by
  refine ⟨rfl, rfl, rfl, rfl, rfl, rfl, by decide, rfl, rfl, rfl⟩

theorem ticks_after_succ (n : ℕ) :
    ticks_after (n + 1) = status_update_tick (ticks_after n) 0 := by
  unfold ticks_after
  rw [Function.iterate_succ_apply']

theorem status_update_tick_keeps_connected (svc : RobotService) (gauss : ℚ)
    (h : svc.is_connected = true) :
    (status_update_tick svc gauss).is_connected = true := by
  unfold status_update_tick
  rw [h, if_pos rfl]

theorem status_update_tick_battery (svc : RobotService) (gauss : ℚ)
    (h : svc.is_connected = true) :
    (status_update_tick svc gauss).robot_state.battery_level =
      if 0 < svc.robot_state.battery_level then svc.robot_state.battery_level - 1/1000
      else svc.robot_state.battery_level := by
  unfold status_update_tick
  rw [h, if_pos rfl]

theorem status_update_tick_temperature (svc : RobotService) (gauss : ℚ)
    (h : svc.is_connected = true) :
    (status_update_tick svc gauss).robot_state.temperature =
      clamp_value (svc.robot_state.temperature + gauss) 30 45 := by
  unfold status_update_tick
  rw [h, if_pos rfl]

theorem ticks_after_battery (n : ℕ) (hn : n ≤ 85000) :
    (ticks_after n).is_connected = true ∧
    (ticks_after n).robot_state.battery_level = 85 - (n : ℚ) / 1000 := by
  induction n with
  | zero =>
    refine ⟨rfl, ?_⟩
    show connected_start.robot_state.battery_level = 85 - ((0 : ℕ) : ℚ) / 1000
    norm_num [connected_start, simulate_connection, RobotService.init, RobotState.init]
  | succ k ih =>
    have hk : k ≤ 85000 := Nat.le_of_succ_le hn
    have hklt : k < 85000 := Nat.lt_of_succ_le hn
    obtain ⟨hc, hb⟩ := ih hk
    have hpos : 0 < (ticks_after k).robot_state.battery_level := by
      rw [hb]
      have hq : (k : ℚ) < 85000 := by exact_mod_cast hklt
      have : (k : ℚ) / 1000 < 85 := by
        rw [div_lt_iff₀ (by norm_num : (0:ℚ) < 1000)]
        linarith
      linarith
    refine ⟨?_, ?_⟩
    · rw [ticks_after_succ]
      exact status_update_tick_keeps_connected _ 0 hc
    · rw [ticks_after_succ, status_update_tick_battery _ 0 hc, if_pos hpos, hb]
      push_cast
      ring

/-- C2 counterexample: from the post-connection state (battery 85.0), the
battery reaches exactly 0 after 85000 ticks; the 85001st tick — executed
while still connected — leaves it at 0 instead of decreasing it by 0.001,
because robot_service.py line 357 guards the decrement with
`if self.robot_state.battery_level > 0`. -/
theorem telemetry_battery_no_decrease_at_zero :
    (ticks_after 85000).is_connected = true ∧
    (ticks_after 85000).robot_state.battery_level = 0 ∧
    (ticks_after 85001).robot_state.battery_level = 0 ∧
    (ticks_after 85001).robot_state.battery_level ≠
      (ticks_after 85000).robot_state.battery_level - 1/1000 := by
  obtain ⟨hc, hb⟩ := ticks_after_battery 85000 le_rfl
  have h0 : (ticks_after 85000).robot_state.battery_level = 0 := by
    rw [hb]; norm_num
  have h1 : (ticks_after 85001).robot_state.battery_level = 0 := by
    rw [ticks_after_succ, status_update_tick_battery _ 0 hc, h0]
    rw [if_neg (lt_irrefl (0 : ℚ))]
  refine ⟨hc, h0, h1, ?_⟩
  rw [h1, h0]
  norm_num

/-- C2 (amended): after every telemetry tick executed while connected, the
stored temperature lies in [30, 45] °C (for any Gaussian draw); the battery
decreases by exactly 0.001 on a tick only while it is positive, and is left
unchanged by a tick once it is ≤ 0. -/
theorem telemetry_tick_bounds (svc : RobotService) (gauss : ℚ)
    (h : svc.is_connected = true) :
    30 ≤ (status_update_tick svc gauss).robot_state.temperature ∧
    (status_update_tick svc gauss).robot_state.temperature ≤ 45 ∧
    (0 < svc.robot_state.battery_level →
      (status_update_tick svc gauss).robot_state.battery_level =
        svc.robot_state.battery_level - 1/1000) ∧
    (svc.robot_state.battery_level ≤ 0 →
      (status_update_tick svc gauss).robot_state.battery_level =
        svc.robot_state.battery_level) := by
  refine ⟨?_, ?_, ?_, ?_⟩
  · rw [status_update_tick_temperature svc gauss h]
    exact le_clamp_value _ _ _
  · rw [status_update_tick_temperature svc gauss h]
    exact clamp_value_le _ _ _ (by norm_num)
  · intro hb
    rw [status_update_tick_battery svc gauss h, if_pos hb]
  · intro hb
    rw [status_update_tick_battery svc gauss h, if_neg (not_lt.mpr hb)]

/-- Witness for C2's amended statement at the concrete post-connection
state. -/
theorem telemetry_tick_witness :
    30 ≤ (status_update_tick connected_start 0).robot_state.temperature ∧
    (status_update_tick connected_start 0).robot_state.temperature ≤ 45 ∧
    (status_update_tick connected_start 0).robot_state.battery_level = 85 - 1/1000 := by
  have h := telemetry_tick_bounds connected_start 0 rfl
  refine ⟨h.1, h.2.1, ?_⟩
  have hb := h.2.2.1 (by decide)
  rw [hb]
  rfl

/-- C4 counterexample: on an uninitialized service, `detect_objects` (and
the other detection methods likewise) returns the normal result
`Except.ok []` to its caller — the internal plain `Exception` raised by the
initialization guard is caught by the method's own `except` handler — so
the call does not fail with an AI-domain error. -/
theorem detect_uninitialized_returns_normal_empty :
    detect_objects AIServiceState.fresh (Except.ok ()) 0 =
      (Except.ok [], AIServiceState.fresh) ∧
    detect_faces AIServiceState.fresh (Except.ok ()) 0 =
      (Except.ok [], AIServiceState.fresh) ∧
    estimate_pose AIServiceState.fresh (Except.ok ()) 0 =
      (Except.ok [], AIServiceState.fresh) ∧
    detect_objects_try_body AIServiceState.fresh (Except.ok ()) 0 =
      Except.error "AI服务未初始化" :=
  ⟨rfl, rfl, rfl, rfl⟩

/-- C4 (amended): calling any detection method (`detect_objects`,
`detect_faces`, `estimate_pose`) while the service is not initialized does
not raise an AI-domain error; each method catches its internal
"not initialized" exception and returns an empty result list to the
caller, leaving the service state (including its statistics) unchanged. -/
theorem detect_before_init_returns_empty (st : AIServiceState)
    (pre : Except String Unit) (t : ℚ) (h : st.is_initialized = false) :
    detect_objects st pre t = (Except.ok [], st) ∧
    detect_faces st pre t = (Except.ok [], st) ∧
    estimate_pose st pre t = (Except.ok [], st) := by
  unfold detect_objects detect_faces estimate_pose
  unfold detect_objects_try_body detect_faces_try_body estimate_pose_try_body
  rw [h]
  exact ⟨rfl, rfl, rfl⟩

/-- Witness for C4's amended statement on a fresh service with a failing
preprocessing outcome. -/
theorem detect_before_init_witness :
    detect_objects AIServiceState.fresh (Except.error "bad image") (1/10) =
      (Except.ok [], AIServiceState.fresh) :=
  (detect_before_init_returns_empty AIServiceState.fresh
    (Except.error "bad image") (1/10) rfl).1

theorem foldl_update_stats (ts : List ℚ) (s : InferenceStats) :
    (ts.foldl update_stats s).total_inferences = s.total_inferences + ts.length ∧
    (ts.foldl update_stats s).average_time *
        ((s.total_inferences : ℚ) + (ts.length : ℚ)) =
      s.average_time * (s.total_inferences : ℚ) + ts.sum := by
  induction ts generalizing s with
  | nil => simp
  | cons t rest ih =>
    obtain ⟨ih1, ih2⟩ := ih (update_stats s t)
    have htot : (update_stats s t).total_inferences = s.total_inferences + 1 := rfl
    have husq : ((update_stats s t).total_inferences : ℚ) =
        (s.total_inferences : ℚ) + 1 := by
      rw [htot]; push_cast; ring
    have havg : (update_stats s t).average_time * ((s.total_inferences : ℚ) + 1) =
        s.average_time * (s.total_inferences : ℚ) + t := by
      unfold update_stats
      simp only
      push_cast
      have hne : ((s.total_inferences : ℚ) + 1) ≠ 0 := by positivity
      field_simp
    rw [husq] at ih2
    constructor
    · rw [List.foldl_cons, ih1, htot, List.length_cons]
      omega
    · rw [List.foldl_cons]
      push_cast [List.length_cons, List.sum_cons]
      linear_combination ih2 + havg

/-- C9: starting from a fresh service, the running statistic after
recording any sequence of inference latencies has `total_inferences` equal
to the number of recordings and `average_time` equal to their mean
(maintained incrementally by `update_stats` via
`new_mean = (old_mean * (n - 1) + latest) / n`); in particular the
latencies 0.10, 0.20, 0.30 yield running averages 0.10, 0.15, 0.20. -/
theorem running_average_is_mean :
    (∀ ts : List ℚ,
      (record_latencies ts).total_inferences = ts.length ∧
      (record_latencies ts).average_time = ts.sum / (ts.length : ℚ)) ∧
    (record_latencies [1/10]).average_time = 1/10 ∧
    (record_latencies [1/10, 2/10]).average_time = 3/20 ∧
    (record_latencies [1/10, 2/10, 3/10]).average_time = 1/5 := by
  refine ⟨?_, ?_, ?_, ?_⟩
  · intro ts
    obtain ⟨h1, h2⟩ := foldl_update_stats ts InferenceStats.start
    have e1 : InferenceStats.start.total_inferences = 0 := rfl
    simp only [InferenceStats.start, Nat.cast_zero, zero_add, zero_mul] at h2
    constructor
    · unfold record_latencies
      rw [h1, e1, Nat.zero_add]
    · rcases eq_or_ne ts.length 0 with hl | hl
      · have hnil : ts = [] := List.length_eq_zero.mp hl
        subst hnil
        simp [record_latencies, InferenceStats.start]
      · have hne : ((ts.length : ℚ)) ≠ 0 := by exact_mod_cast hl
        unfold record_latencies
        rw [eq_div_iff hne]
        exact h2
  · norm_num [record_latencies, List.foldl, update_stats, InferenceStats.start]
  · norm_num [record_latencies, List.foldl, update_stats, InferenceStats.start]
  · norm_num [record_latencies, List.foldl, update_stats, InferenceStats.start]

theorem batch_loop_length (f : ℕ → String → BatchEntry) (i : ℕ) (l : List String) :
    (batch_loop f i l).length = l.length := by
  induction l generalizing i with
  | nil => rfl
  | cons img rest ih =>
    unfold batch_loop
    rw [List.length_cons, List.length_cons, ih]

theorem batch_loop_get (f : ℕ → String → BatchEntry) (i k : ℕ) (l : List String) :
    (batch_loop f i l).get? k = (l.get? k).map (f (i + k)) := by
  induction l generalizing i k with
  | nil => rfl
  | cons img rest ih =>
    cases k with
    | zero => rfl
    | succ k =>
      unfold batch_loop
      rw [List.get?_cons_succ, List.get?_cons_succ, ih]
      have h : i + 1 + k = i + (k + 1) := by omega
      rw [h]

/-- C5: a batch-analyze request with more than 10 images is rejected with
an HTTP 400 error before any image is processed; a request with at most 10
(in particular exactly 10) images is accepted, returns exactly one result
entry per image, every entry is determined by its own image alone, and a
service failure on one image is captured in that image's entry (as a
`failed` entry with the error message) without aborting the remaining
images. -/
theorem batch_analyze_limit_and_isolation (images : List String)
    (analysis_type : String) (threshold : ℚ)
    (dO : String → Except String (List DetectionResult))
    (dF : String → Except String (List FaceResult)) :
    (10 < images.length →
      batch_analyze images analysis_type threshold dO dF =
        Except.error { status_code := 400, detail := "批量分析最多支持10张图片" }) ∧
    (images.length ≤ 10 →
      ∃ resp, batch_analyze images analysis_type threshold dO dF = Except.ok resp ∧
        resp.success = true ∧
        resp.total_images = images.length ∧
        resp.results.length = images.length ∧
        (∀ k, resp.results.get? k =
          (images.get? k).map (batch_process_image analysis_type threshold dO dF k)) ∧
        (∀ k img e, images.get? k = some img → analysis_type = "objects" →
          dO img = Except.error e →
          resp.results.get? k = some (BatchEntry.failed k e))) := by
  constructor
  · intro h
    unfold batch_analyze
    rw [if_pos h]
  · intro h
    have hif : ¬ (10 < images.length) := not_lt.mpr h
    refine ⟨{ success := true
              total_images := images.length
              successful_analyses :=
                ((batch_loop (batch_process_image analysis_type threshold dO dF)
                    0 images).filter (fun r => batch_entry_success r)).length
              results := batch_loop
                (batch_process_image analysis_type threshold dO dF) 0 images },
            ?_, rfl, rfl, ?_, ?_, ?_⟩
    · unfold batch_analyze
      rw [if_neg hif]
    · exact batch_loop_length _ _ _
    · intro k
      rw [batch_loop_get]
      simp [Nat.zero_add]
    · intro k img e himg htype hdo
      subst htype
      rw [batch_loop_get, himg]
      simp [batch_process_image, hdo, Nat.zero_add]

/-- Witness for C5: an 11-image request is rejected with 400; a 10-image
request whose 4th image makes the detection service fail is accepted,
returns 10 entries, and captures the failure in entry 3. -/
theorem batch_analyze_witness :
    batch_analyze ["1", "2", "3", "4", "5", "6", "7", "8", "9", "10", "11"]
      "objects" (1/2) demo_detect_objects demo_detect_faces =
      Except.error { status_code := 400, detail := "批量分析最多支持10张图片" } ∧
    (∃ resp, batch_analyze ["1", "2", "3", "bad", "5", "6", "7", "8", "9", "10"]
        "objects" (1/2) demo_detect_objects demo_detect_faces = Except.ok resp ∧
      resp.results.length = 10 ∧
      resp.results.get? 3 = some (BatchEntry.failed 3 "boom")) := by
  constructor
  · exact (batch_analyze_limit_and_isolation _ "objects" (1/2)
      demo_detect_objects demo_detect_faces).1 (by decide)
  · obtain ⟨resp, hr, _, _, hl, _, hfail⟩ :=
      (batch_analyze_limit_and_isolation
        ["1", "2", "3", "bad", "5", "6", "7", "8", "9", "10"] "objects" (1/2)
        demo_detect_objects demo_detect_faces).2 (by decide)
    refine ⟨resp, hr, ?_, ?_⟩
    · rw [hl]
      rfl
    · exact hfail 3 "bad" "boom" rfl rfl rfl

/-- C6: for every declared API-level domain error (validation,
authentication, authorization, not-found, conflict, rate-limit, and every
other `APIException`), the global handler renders a response whose body is
`{"error": {"code", "message", "timestamp", "details"?}}` — the `code`
field is the error's declared `error_code` string verbatim, the HTTP
status is the error's declared status code, the message passes through,
the details object appears exactly when the declared details are
non-empty, and the six concrete specializations fix the declared
code/status pairs 422/VALIDATION, 401/AUTHENTICATION, 403/AUTHORIZATION,
404/NOT_FOUND, 409/CONFLICT, 429/RATE_LIMIT. -/
theorem api_error_envelope (e : DeclaredAPIError) (timestamp : Option String) :
    (api_exception_handler e.toExceptionData timestamp).status_code =
      e.toExceptionData.status_code ∧
    (api_exception_handler e.toExceptionData timestamp).error.code =
      e.toExceptionData.error_code.value ∧
    (api_exception_handler e.toExceptionData timestamp).error.message =
      e.toExceptionData.message ∧
    (api_exception_handler e.toExceptionData timestamp).error.timestamp = timestamp ∧
    (api_exception_handler e.toExceptionData timestamp).error.details =
      (if e.toExceptionData.details.isEmpty then none
       else some e.toExceptionData.details) ∧
    (api_exception_handler e.toExceptionData timestamp).headers =
      e.toExceptionData.headers ∧
    (∀ m fe, (validation_exception m fe).status_code = 422 ∧
      (validation_exception m fe).error_code.value = "VALIDATION_ERROR") ∧
    (∀ m, (authentication_exception m).status_code = 401 ∧
      (authentication_exception m).error_code.value = "AUTHENTICATION_ERROR") ∧
    (∀ m, (authorization_exception m).status_code = 403 ∧
      (authorization_exception m).error_code.value = "AUTHORIZATION_ERROR") ∧
    (∀ r i, (not_found_exception r i).status_code = 404 ∧
      (not_found_exception r i).error_code.value = "NOT_FOUND_ERROR") ∧
    (∀ m r, (conflict_exception m r).status_code = 409 ∧
      (conflict_exception m r).error_code.value = "CONFLICT_ERROR") ∧
    (∀ m ra, (rate_limit_exception m ra).status_code = 429 ∧
      (rate_limit_exception m ra).error_code.value = "RATE_LIMIT_ERROR") :=
  ⟨rfl, rfl, rfl, rfl, rfl, rfl,
   fun _ _ => ⟨rfl, rfl⟩, fun _ => ⟨rfl, rfl⟩, fun _ => ⟨rfl, rfl⟩,
   fun _ _ => ⟨rfl, rfl⟩, fun _ _ => ⟨rfl, rfl⟩, fun _ _ => ⟨rfl, rfl⟩⟩

/-- C7: evaluation of `WebSocketManager.connect` at a concrete input.  The
handshake, registration and metadata recording happen, but the
`connection_established` acknowledgment is never sent: the method calls
`self.send_to_websocket(...)`, a name the class does not define, so the
call raises `AttributeError` (re-raised by the method's `except` handler)
with no message delivered.  (`__init__` likewise calls the undefined
`_start_heartbeat`.) -/
theorem ws_connect_attribute_error :
    (ws_connect ws_manager_start 1 "control" 0 "client").1 =
      Except.error (PyError.attributeError "send_to_websocket") ∧
    (ws_connect ws_manager_start 1 "control" 0 "client").2.sent_messages = [] ∧
    (ws_connect ws_manager_start 1 "control" 0 "client").2.accepted = [1] ∧
    ws_lookup (ws_connect ws_manager_start 1 "control" 0 "client").2.connections
      "control" = some [1] ∧
    (ws_connect ws_manager_start 1 "control" 0 "client").2.connection_info =
      [(1, ⟨"control", 0, 0, "client"⟩)] ∧
    "send_to_websocket" ∉ websocket_manager_methods ∧
    "_start_heartbeat" ∉ websocket_manager_methods := by
  refine ⟨?_, ?_, ?_, ?_, ?_, by decide, by decide⟩ <;> rfl

end ReachyMini
